import Mathlib

/-!
Shallow embedding of the multi-factor scoring and gap-analysis engine of the
career-guidance backend (`backend/agents/career_match_agent.py`,
`backend/agents/skill_gap_agent.py`, `backend/agents/resource_suggest_agent.py`,
`backend/agents/base_agent.py`).  Python floats are modelled by rationals;
Python's `round(x, n)` is modelled by rounding `x * 10^n` to the nearest
integer (no claim below evaluates at an exact half, where Python's
round-half-to-even could differ from round-half-up).
-/

namespace CareerAdvisor

/-! ## Rounding helpers (model of Python `round(x, 2)` / `round(x, 1)`) -/

def round2 (q : ℚ) : ℚ := ((round (q * 100) : ℤ) : ℚ) / 100

def round1 (q : ℚ) : ℚ := ((round (q * 10) : ℤ) : ℚ) / 10

/-! ## String helpers: Python `needle in haystack` (substring test) and `str.split()` -/

/-- Character-list prefix test. -/
def charsStartWith : List Char → List Char → Bool
  | [], _ => true
  | _ :: _, [] => false
  | a :: as, b :: bs => a == b && charsStartWith as bs

/-- Character-list substring test (needle occurs somewhere in haystack). -/
def charsContain (n : List Char) : List Char → Bool
  | [] => charsStartWith n []
  | c :: t => charsStartWith n (c :: t) || charsContain n t

/-- Model of Python `needle in haystack` on strings. -/
def strContains (needle hay : String) : Bool := charsContain needle.data hay.data

/-- Model of Python `s.lower()` (exact on the ASCII identifiers and labels this
system compares; `Char.toLower` lower-cases exactly `A`–`Z`). -/
def strLower (s : String) : String := ⟨s.data.map Char.toLower⟩

/-- Accumulator-based word splitter over characters (`acc` holds the current
word reversed). -/
def charsWords : List Char → List Char → List String
  | acc, [] => if acc = [] then [] else [⟨acc.reverse⟩]
  | acc, c :: cs =>
    if c.isWhitespace then
      if acc = [] then charsWords [] cs else ⟨acc.reverse⟩ :: charsWords [] cs
    else charsWords (c :: acc) cs

/-- Model of Python `s.split()`: split on whitespace runs, dropping empty pieces. -/
def splitWords (s : String) : List String := charsWords [] s.data

/-! ## Data model (from `backend/models/career.py` and `backend/models/user.py`);
only the fields read by the scoring core are carried. -/

structure Career where
  id : String
  title : String
  industry : String
  description : String
  required_skills : List String
  preferred_skills : List String
  education_requirements : List String
  experience_level : String
  growth_potential : ℚ
  demand_score : ℚ
deriving DecidableEq

structure UserProfile where
  skills : List String
  interests : List String
  preferred_industries : List String
  education_level : String
  experience_years : ℚ
  current_year : ℤ
deriving DecidableEq

/-! ## Career match scorer (`career_match_agent.py`, `_calculate_match_score`) -/

def userSkillSet (p : UserProfile) : Finset String :=
  (p.skills.map strLower).toFinset

def userInterestSet (p : UserProfile) : Finset String :=
  (p.interests.map strLower).toFinset

def userIndustrySet (p : UserProfile) : Finset String :=
  (p.preferred_industries.map strLower).toFinset

def requiredSkillSet (c : Career) : Finset String :=
  (c.required_skills.map strLower).toFinset

def preferredSkillSet (c : Career) : Finset String :=
  (c.preferred_skills.map strLower).toFinset

def allCareerSkills (c : Career) : Finset String :=
  requiredSkillSet c ∪ preferredSkillSet c

/-- Skills component (40% weight): `(|M|/|R|)*70 + (|RM|/max(|required|,1))*30`,
`0` when the role lists no skills (the `if all_career_skills:` guard). -/
def skillScore (p : UserProfile) (c : Career) : ℚ :=
  if allCareerSkills c = ∅ then 0
  else
    (((userSkillSet p ∩ allCareerSkills c).card : ℚ) / ((allCareerSkills c).card : ℚ)) * 70 +
    (((userSkillSet p ∩ requiredSkillSet c).card : ℚ) / ((max (requiredSkillSet c).card 1 : ℕ) : ℚ)) * 30

/-- Keyword list: lower-cased words of the title plus the first 20 words of the
description.  The source builds a Python `set`; since the list is only used
through an existential `any(...)` test, de-duplication is immaterial. -/
def careerKeywordList (c : Career) : List String :=
  ((splitWords c.title) ++ (splitWords c.description).take 20).map strLower

def interestMatches (p : UserProfile) (c : Career) : ℕ :=
  ((userInterestSet p).filter
    (fun interest => (careerKeywordList c).any (fun kw => strContains kw interest) = true)).card

/-- Interests component (25% weight). -/
def interestScore (p : UserProfile) (c : Career) : ℚ :=
  if userInterestSet p = ∅ then 0
  else min (((interestMatches p c : ℚ) / ((userInterestSet p).card : ℚ)) * 100) 100

/-- Industry component (15% weight). -/
def industryScore (p : UserProfile) (c : Career) : ℚ :=
  if userIndustrySet p = ∅ then 80
  else if strLower c.industry ∈ userIndustrySet p then 100
  else 50

/-- `education_mapping.get(s, 3)`. -/
def eduRank (s : String) : ℤ :=
  if s = "high school" then 1
  else if s = "diploma" then 2
  else if s = "bachelor" then 3
  else if s = "master" then 4
  else if s = "phd" then 5
  else 3

/-- Education component (10% weight). -/
def educationScore (p : UserProfile) (c : Career) : ℚ :=
  let u := eduRank (strLower p.education_level)
  let r := eduRank (strLower (c.education_requirements.headD "bachelor"))
  if u ≥ r then 100
  else if u = r - 1 then 70
  else 40

/-- `experience_mapping.get(s, (0, 2))`. -/
def expRange (s : String) : ℚ × ℚ :=
  if s = "entry" then (0, 2)
  else if s = "mid" then (2, 8)
  else if s = "senior" then (8, 15)
  else if s = "executive" then (15, 50)
  else (0, 2)

/-- Experience component (10% weight). -/
def experienceScore (p : UserProfile) (c : Career) : ℚ :=
  let r := expRange (strLower c.experience_level)
  if r.1 ≤ p.experience_years ∧ p.experience_years ≤ r.2 then 100
  else if p.experience_years < r.1 then max (60 - (r.1 - p.experience_years) * 10) 20
  else max (80 - (p.experience_years - r.2) * 5) 50

/-- `_generate_match_reasoning`. -/
def generateMatchReasoning (skill interest industry education experience : ℚ)
    (c : Career) : String :=
  let reasons : List String :=
    (if 70 < skill then ["Strong skill alignment"]
     else if 40 < skill then ["Good skill foundation with room to grow"]
     else ["Developing skills required"]) ++
    (if 60 < interest then ["aligns with your interests"] else []) ++
    (if 80 < industry then ["matches your preferred industry"] else []) ++
    (if 80 < education then ["education requirements are met"] else []) ++
    (if 80 < experience then ["experience level is appropriate"] else [])
  let base := "This career " ++ String.intercalate ", " (reasons.take 3) ++ "."
  if 7 < c.growth_potential then base ++ " High growth potential in the market."
  else base

structure MatchResult where
  total_score : ℚ
  skill_match : ℚ
  matching_skills : Finset String
  missing_skills : Finset String
  reasoning : String
  comp_skills : ℚ
  comp_interests : ℚ
  comp_industry : ℚ
  comp_education : ℚ
  comp_experience : ℚ
deriving DecidableEq

/-- `_calculate_match_score`. -/
def calculateMatchScore (p : UserProfile) (c : Career) : MatchResult :=
  let ss := skillScore p c
  let is := interestScore p c
  let ns := industryScore p c
  let es := educationScore p c
  let xs := experienceScore p c
  { total_score := round2 (ss * 0.40 + is * 0.25 + ns * 0.15 + es * 0.10 + xs * 0.10)
    skill_match := round2 ss
    matching_skills := userSkillSet p ∩ allCareerSkills c
    missing_skills := requiredSkillSet c \ userSkillSet p
    reasoning := generateMatchReasoning ss is ns es xs c
    comp_skills := ss
    comp_interests := is
    comp_industry := ns
    comp_education := es
    comp_experience := xs }

/-! ## Skill gap agent (`skill_gap_agent.py`) -/

/-- `_classify_skill_type`. -/
def classifySkillType (skill : String) : String :=
  let s := strLower skill
  if ["python", "java", "javascript", "sql", "programming"].any (fun w => strContains w s) then
    "technical"
  else if ["communication", "leadership", "management"].any (fun w => strContains w s) then
    "soft"
  else if ["english", "hindi", "spanish"].any (fun w => strContains w s) then
    "language"
  else "domain"

/-- `_estimate_base_proficiency` (`education_mapping.get(level.lower(), 4.0)`). -/
def baseProficiency (education_level : String) : ℚ :=
  let e := strLower education_level
  if e = "high school" then 2
  else if e = "diploma" then 3
  else if e = "bachelor" then 4
  else if e = "master" then 5
  else if e = "phd" then 6
  else 4

/-- `_get_skill_type_modifier`. -/
def skillTypeModifier (skill : String) : ℚ :=
  let s := strLower skill
  if ["python", "java", "javascript", "coding", "programming"].any (fun w => strContains w s) then 1
  else if ["communication", "leadership", "teamwork"].any (fun w => strContains w s) then 0.5
  else if ["ai", "machine learning", "blockchain"].any (fun w => strContains w s) then -0.5
  else 0

/-- `_get_user_skill_proficiency` followed by the `.get(name, 0.0)` lookup of the
gap calculator.  The source builds a dict keyed by `skill.lower()`; the stored
value depends on the skill only through its lower-cased form (base and
experience terms are skill-independent and the modifier lower-cases its
argument), so later duplicate keys overwrite with the same value and the dict
collapses to this function of the lower-cased name. -/
def skillProficiency (p : UserProfile) (name : String) : ℚ :=
  if p.skills.any (fun s => strLower s = name) then
    round1 (min (baseProficiency p.education_level +
                 min (p.experience_years * 0.5) 3 +
                 skillTypeModifier name) 10)
  else 0

structure SkillReq where
  name : String
  importance_level : ℚ
  required_proficiency : ℚ
  skill_type : String
  is_required : Bool
deriving DecidableEq

def reqFromRequired (skill : String) : SkillReq :=
  { name := strLower skill
    importance_level := 9
    required_proficiency := 7
    skill_type := classifySkillType skill
    is_required := true }

def reqFromPreferred (skill : String) : SkillReq :=
  { name := strLower skill
    importance_level := 6
    required_proficiency := 5
    skill_type := classifySkillType skill
    is_required := false }

/-- One step of the preferred-skills loop: append unless the lower-cased name is
already present among the accumulated requirements. -/
def addPreferred (acc : List SkillReq) (skill : String) : List SkillReq :=
  if strLower skill ∈ acc.map SkillReq.name then acc
  else acc ++ [reqFromPreferred skill]

/-- `_get_career_skill_requirements`: all required skills (importance 9,
proficiency 7), then preferred skills not already listed (importance 6,
proficiency 5). -/
def getCareerSkillRequirements (c : Career) : List SkillReq :=
  c.preferred_skills.foldl addPreferred (c.required_skills.map reqFromRequired)

structure LearnRes where
  type : String
  title : String
  provider : String
  duration : String
  difficulty : String
  skill_type : String
deriving DecidableEq

/-- Python `str.title()`: upper-case a letter that follows a non-letter,
lower-case a letter that follows a letter. -/
def pyTitleChars : Bool → List Char → List Char
  | _, [] => []
  | prevAlpha, c :: cs =>
    let c' := if c.isAlpha then (if prevAlpha then c.toLower else c.toUpper) else c
    c' :: pyTitleChars c.isAlpha cs

def pyTitle (s : String) : String := ⟨pyTitleChars false s.data⟩

/-- `_get_learning_resources` (static stub in the source). -/
def getLearningResources (skill_name : String) (current_level : ℚ) : List LearnRes :=
  [{ type := "course"
     title := "Learn " ++ pyTitle skill_name
     provider := "Online Platform"
     duration := "4-6 weeks"
     difficulty := if current_level < 3 then "beginner" else "intermediate"
     skill_type := classifySkillType skill_name }]

structure SkillGap where
  skill_name : String
  importance_level : ℚ
  current_proficiency : ℚ
  required_proficiency : ℚ
  gap_score : ℚ
  learning_resources : List LearnRes
deriving DecidableEq

/-- `_analyze_single_skill_gap`: `gap_score = max(required - current, 0.0)`. -/
def analyzeSingleSkillGap (p : UserProfile) (req : SkillReq) : SkillGap :=
  let current := skillProficiency p req.name
  { skill_name := req.name
    importance_level := req.importance_level
    current_proficiency := current
    required_proficiency := req.required_proficiency
    gap_score := max (req.required_proficiency - current) 0
    learning_resources := getLearningResources req.name current }

/-- Per-gap readiness: `min(current/required*100, 100)`, `100` when
`required_proficiency ≤ 0`. -/
def skillReadiness (g : SkillGap) : ℚ :=
  if 0 < g.required_proficiency then
    min (g.current_proficiency / g.required_proficiency * 100) 100
  else 100

/-- `_calculate_overall_readiness`: importance-weighted mean of per-gap
readiness, `100.0` for an empty list, rounded to 1 decimal.  The source's
accumulating loop is rendered as list sums. -/
def calculateOverallReadiness (gaps : List SkillGap) : ℚ :=
  if gaps = [] then 100
  else
    let totalWeight := (gaps.map SkillGap.importance_level).sum
    let totalWeighted := (gaps.map (fun g => skillReadiness g * g.importance_level)).sum
    round1 (if 0 < totalWeight then totalWeighted / totalWeight else 100)

/-! ## Stable descending sort: model of CPython's stable `list.sort(key=…,
reverse=True)`.  Insertion sort placing an earlier element before later
elements of equal key is stable, which is the only property of the sorting
algorithm the source relies on. -/

/-- Sort descending by `key`, keeping the input order of equal keys. -/
def sortByKeyDesc {α κ : Type} [LinearOrder κ] (key : α → κ) (l : List α) : List α :=
  l.insertionSort (fun a b => key b ≤ key a)

/-! ## First-occurrence de-duplication by key (the `seen`-set loops of
`_rank_and_deduplicate_resources`). -/

def dedupByAux {α κ : Type} [DecidableEq κ] (key : α → κ) : List α → List κ → List α
  | [], _ => []
  | x :: xs, seen =>
    if key x ∈ seen then dedupByAux key xs seen
    else x :: dedupByAux key xs (key x :: seen)

/-- Keep the first occurrence of every key, in input order. -/
def dedupBy {α κ : Type} [DecidableEq κ] (key : α → κ) (l : List α) : List α :=
  dedupByAux key l []

/-! ## Roadmap bucketer (`_create_learning_roadmap`) -/

def isHighPriority (g : SkillGap) : Bool :=
  decide (5 < g.gap_score ∧ 7 < g.importance_level)

def isMediumPriority (g : SkillGap) : Bool :=
  decide (¬(5 < g.gap_score ∧ 7 < g.importance_level) ∧
          (3 < g.gap_score ∧ 5 < g.importance_level))

def isLowPriority (g : SkillGap) : Bool :=
  !isHighPriority g && !isMediumPriority g

/-- The `if / elif / else` partition loop, order-preserving. -/
def bucketGaps : List SkillGap → List SkillGap × List SkillGap × List SkillGap
  | [] => ([], [], [])
  | g :: rest =>
    let b := bucketGaps rest
    if 5 < g.gap_score ∧ 7 < g.importance_level then (g :: b.1, b.2.1, b.2.2)
    else if 3 < g.gap_score ∧ 5 < g.importance_level then (b.1, g :: b.2.1, b.2.2)
    else (b.1, b.2.1, g :: b.2.2)

structure RoadmapPhase where
  skills : List String
  duration_weeks : ℕ
  description : String
deriving DecidableEq

structure Roadmap where
  phase_1_immediate : RoadmapPhase
  phase_2_foundation : RoadmapPhase
  phase_3_advanced : RoadmapPhase
deriving DecidableEq

def sortByImportanceDesc (l : List SkillGap) : List SkillGap :=
  sortByKeyDesc SkillGap.importance_level l

/-- `_create_learning_roadmap`: bucket by priority, sort each bucket by
importance descending (stable), then fill the fixed three phases. -/
def createLearningRoadmap (gaps : List SkillGap) : Roadmap :=
  let b := bucketGaps gaps
  let hs := sortByImportanceDesc b.1
  let ms := sortByImportanceDesc b.2.1
  let ls := sortByImportanceDesc b.2.2
  { phase_1_immediate :=
      { skills := (hs.take 3).map SkillGap.skill_name
        duration_weeks := 8
        description := "Critical skills needed for career entry" }
    phase_2_foundation :=
      { skills := (hs.drop 3 ++ ms.take 3).map SkillGap.skill_name
        duration_weeks := 12
        description := "Core competency development" }
    phase_3_advanced :=
      { skills := (ms.drop 3 ++ ls).map SkillGap.skill_name
        duration_weeks := 16
        description := "Advanced skills for career growth" } }

/-- `_identify_priority_skills`: stable sort by `gap_score * importance_level`
descending, top 5 names.  (The source sorts `(name, score)` pairs; sorting the
gaps themselves by the same key yields the same name order.) -/
def identifyPrioritySkills (gaps : List SkillGap) : List String :=
  ((sortByKeyDesc (fun g : SkillGap => g.gap_score * g.importance_level) gaps).take 5).map
    SkillGap.skill_name

/-! ## Skill gap analysis entry point (`SkillGapAgent._process`, numeric core).
The external text-generation decoration (`ai_recommendations`) and the derived
`time_estimates` block are not modelled: no claim touches them and they do not
feed back into the fields below. -/

structure AnalysisResult where
  skill_gaps : List SkillGap
  overall_readiness : ℚ
  learning_roadmap : Roadmap
  priority_skills : List String
deriving DecidableEq

/-- `analyze_skill_gaps`: raises (models `raise ValueError`) when no target
career is supplied, otherwise computes the numeric analysis. -/
def analyzeSkillGaps (p : UserProfile) (target : Option Career) :
    Except String AnalysisResult :=
  match target with
  | none => .error "target_career is required for skill gap analysis"
  | some career =>
    let reqs := getCareerSkillRequirements career
    let gaps := reqs.map (analyzeSingleSkillGap p)
    .ok { skill_gaps := gaps
          overall_readiness := calculateOverallReadiness gaps
          learning_roadmap := createLearningRoadmap gaps
          priority_skills := identifyPrioritySkills gaps }

/-! ## Career match pipeline (`CareerMatchAgent._process`, scoring loop) -/

structure CareerMatchRec where
  career : Career
  match_score : ℚ
  skill_match_percentage : ℚ
  missing_skills : Finset String
  matching_skills : Finset String
  recommendation_reason : String
deriving DecidableEq

def mkCareerMatch (c : Career) (r : MatchResult) : CareerMatchRec :=
  { career := c
    match_score := r.total_score
    skill_match_percentage := r.skill_match
    missing_skills := r.missing_skills
    matching_skills := r.matching_skills
    recommendation_reason := r.reasoning }

/-- The scoring loop of `_process`: score every candidate, keep those with
`total_score > 30` (the append-if loop is rendered as `filterMap`), then
stable-sort by `match_score` descending and keep the top 10. -/
def processCareerMatches (p : UserProfile) (candidates : List Career) :
    List CareerMatchRec :=
  let scored := candidates.filterMap (fun c =>
    let r := calculateMatchScore p c
    if 30 < r.total_score then some (mkCareerMatch c r) else none)
  (sortByKeyDesc CareerMatchRec.match_score scored).take 10

/-- The same loop with a fallible scorer, keeping Python's exception semantics:
an exception in one iteration aborts the whole loop (there is no per-item
`try` in `_process`). -/
def scoreLoopE (score : Career → Except String MatchResult) :
    List Career → Except String (List CareerMatchRec)
  | [] => .ok []
  | c :: rest =>
    match score c with
    | .error e => .error e
    | .ok r =>
      match scoreLoopE score rest with
      | .error e => .error e
      | .ok tail => .ok (if 30 < r.total_score then mkCareerMatch c r :: tail else tail)

def processCareerMatchesE (score : Career → Except String MatchResult)
    (candidates : List Career) : Except String (List CareerMatchRec) :=
  (scoreLoopE score candidates).map
    (fun ms => (sortByKeyDesc CareerMatchRec.match_score ms).take 10)

/-! ## Agent execution wrapper (`BaseAgent.execute`).  `result : Option ρ`
models the result mapping, `none` standing for the empty dict `{}` returned on
failure; timing and logging are not modelled. -/

structure AgentOutputM (ρ : Type) where
  agent_name : String
  success : Bool
  result : Option ρ
  confidence_score : ℚ
  error_message : Option String
deriving DecidableEq

/-- `BaseAgent.execute`: validate, run `_process` and the confidence scorer
inside one `try`; any failure is caught and reported as a failed
`AgentOutput`, never re-raised. -/
def executeAgent {ρ : Type} (name : String) (validate : Except String Unit)
    (process : Except String (ρ × ℚ)) : AgentOutputM ρ :=
  match validate >>= fun _ => process with
  | .ok (r, conf) =>
    { agent_name := name
      success := true
      result := some r
      confidence_score := conf
      error_message := none }
  | .error e =>
    { agent_name := name
      success := false
      result := none
      confidence_score := 0
      error_message := some ("Agent " ++ name ++ " failed: " ++ e) }

/-! ## Resource ranker (`_rank_and_deduplicate_resources`) -/

structure LearningResource where
  title : String
  provider : String
  url : String
  rating : Option ℚ
deriving DecidableEq

/-- `x.rating or 0` (a `None` and a `0.0` rating both yield `0`). -/
def ratingOrZero (x : LearningResource) : ℚ := x.rating.getD 0

/-- Python's descending tuple order on `(rating or 0, title)`. -/
def resourceSortKey (x : LearningResource) : Lex (ℚ × String) :=
  toLex (ratingOrZero x, x.title)

def resourceDedupKey (x : LearningResource) : String × String :=
  (strLower x.title, strLower x.provider)

/-- `rank_dedup`: drop later duplicates of `(title.lower(), provider.lower())`,
sort by `(rating or 0, title)` descending (stable), truncate to `cap`. -/
def rankDedup (cap : ℕ) (l : List LearningResource) : List LearningResource :=
  (sortByKeyDesc resourceSortKey (dedupBy resourceDedupKey l)).take cap

/-- `_rank_and_deduplicate_resources` applies `rankDedup` with cap 10 to the
course list and cap 5 to the certification list. -/
def rankAndDeduplicateResources (courses certs : List LearningResource) :
    List LearningResource × List LearningResource :=
  (rankDedup 10 courses, rankDedup 5 certs)

/-! ## Concrete inputs for the spec's scenarios -/

/-- Scenario 1 profile: skills `{python, sql}`, with interests/industries/
education/experience chosen so the four non-skill components all score 100. -/
def scenario1Profile : UserProfile where
  skills := ["Python", "SQL"]
  interests := ["python"]
  preferred_industries := ["technology"]
  education_level := "bachelor"
  experience_years := 1
  current_year := 1

/-- Scenario 1 role: `required_skills = [python, sql, react]`, no preferred
skills, matching industry/education/experience. -/
def scenario1Career : Career where
  id := "r1"
  title := "Python Developer"
  industry := "Technology"
  description := "Builds data systems"
  required_skills := ["Python", "SQL", "React"]
  preferred_skills := []
  education_requirements := ["bachelor"]
  experience_level := "entry"
  growth_potential := 5
  demand_score := 5

/-- A second candidate role, used as the item whose scoring fails. -/
def failingCareer : Career where
  id := "r0"
  title := "Data Analyst"
  industry := "Technology"
  description := "Analyzes data"
  required_skills := ["SQL"]
  preferred_skills := []
  education_requirements := ["bachelor"]
  experience_level := "entry"
  growth_potential := 5
  demand_score := 5

/-- A scorer that raises on the career with `bad`'s id and behaves like
`_calculate_match_score` elsewhere (stands for an exception thrown while
scoring one candidate). -/
def faultyScorer (p : UserProfile) (bad : Career) : Career → Except String MatchResult :=
  fun c =>
    if c.id = bad.id then Except.error "scoring failed"
    else Except.ok (calculateMatchScore p c)

/-- Scenario 2 profile: `react` estimated at proficiency 2
(high-school base 2, no experience, neutral skill-type modifier). -/
def scenario2Profile : UserProfile where
  skills := ["React"]
  interests := []
  preferred_industries := []
  education_level := "high school"
  experience_years := 0
  current_year := 1

/-- Scenario 2 requirement: importance 9, required proficiency 7 (a required
skill as produced by the role-requirement normalizer). -/
def scenario2Req : SkillReq := reqFromRequired "React"

/-- Scenario 2 gap as produced by the gap calculator. -/
def scenario2Gap : SkillGap := analyzeSingleSkillGap scenario2Profile scenario2Req

/-- Scenario 3 gaps: `(gap_score, importance) = (6, 8), (4, 6), (1, 3)`. -/
def scenario3High : SkillGap where
  skill_name := "a"
  importance_level := 8
  current_proficiency := 1
  required_proficiency := 7
  gap_score := 6
  learning_resources := []

def scenario3Med : SkillGap where
  skill_name := "b"
  importance_level := 6
  current_proficiency := 1
  required_proficiency := 5
  gap_score := 4
  learning_resources := []

def scenario3Low : SkillGap where
  skill_name := "c"
  importance_level := 3
  current_proficiency := 4
  required_proficiency := 5
  gap_score := 1
  learning_resources := []

/-- A target role with no skill requirements at all. -/
def emptyRoleCareer : Career where
  id := "r7"
  title := "Generalist"
  industry := "technology"
  description := "General support"
  required_skills := []
  preferred_skills := []
  education_requirements := []
  experience_level := "entry"
  growth_potential := 5
  demand_score := 5

/-! ## General lemmas: rounding, stable sorting, de-duplication -/

theorem roundMono {a b : ℚ} (h : a ≤ b) : round a ≤ round b := by
  rw [round_eq, round_eq]
  exact Int.floor_le_floor (by linarith)

theorem round2_mono {a b : ℚ} (h : a ≤ b) : round2 a ≤ round2 b := by
  unfold round2
  have : round (a * 100) ≤ round (b * 100) := roundMono (by linarith)
  have h2 : ((round (a * 100) : ℤ) : ℚ) ≤ ((round (b * 100) : ℤ) : ℚ) := by exact_mod_cast this
  linarith

theorem round1_mono {a b : ℚ} (h : a ≤ b) : round1 a ≤ round1 b := by
  unfold round1
  have : round (a * 10) ≤ round (b * 10) := roundMono (by linarith)
  have h2 : ((round (a * 10) : ℤ) : ℚ) ≤ ((round (b * 10) : ℤ) : ℚ) := by exact_mod_cast this
  linarith

theorem sortByKeyDesc_perm {α κ : Type} [LinearOrder κ] (key : α → κ) (l : List α) :
    List.Perm (sortByKeyDesc key l) l :=
  List.perm_insertionSort _ l

theorem sortByKeyDesc_sorted {α κ : Type} [LinearOrder κ] (key : α → κ) (l : List α) :
    (sortByKeyDesc key l).Sorted (fun a b => key b ≤ key a) := by
  haveI : IsTotal α (fun a b => key b ≤ key a) := ⟨fun a b => le_total (key b) (key a)⟩
  haveI : IsTrans α (fun a b => key b ≤ key a) := ⟨fun _ _ _ hab hbc => le_trans hbc hab⟩
  exact List.sorted_insertionSort _ l

theorem sortByKeyDesc_of_sorted {α κ : Type} [LinearOrder κ] {key : α → κ} {l : List α}
    (h : l.Sorted (fun a b => key b ≤ key a)) : sortByKeyDesc key l = l :=
  h.insertionSort_eq

/-- Inserting `a` leaves the sublist of any fixed key value unchanged except for
prepending `a` to its own key class: the elements passed over all have a
strictly larger key. -/
theorem filter_key_orderedInsert {α κ : Type} [LinearOrder κ] (key : α → κ) (a : α)
    (l : List α) (q : κ) :
    (l.orderedInsert (fun a b => key b ≤ key a) a).filter (fun y => decide (key y = q)) =
      if key a = q then a :: l.filter (fun y => decide (key y = q))
      else l.filter (fun y => decide (key y = q)) := by
  induction l with
  | nil =>
    by_cases h : key a = q
    · rw [if_pos h]; simp [List.orderedInsert, List.filter, h]
    · rw [if_neg h]; simp [List.orderedInsert, List.filter, h]
  | cons b t ih =>
    show (List.filter _
      (if key b ≤ key a then a :: b :: t
       else b :: t.orderedInsert (fun a b => key b ≤ key a) a)) = _
    by_cases hab : key b ≤ key a
    · rw [if_pos hab]
      by_cases h : key a = q
      · rw [if_pos h, List.filter_cons_of_pos (by simp [h])]
      · rw [if_neg h, List.filter_cons_of_neg (by simp [h])]
    · rw [if_neg hab]
      have hlt : key a < key b := lt_of_not_le hab
      by_cases h : key a = q
      · have hb : ¬ key b = q := by
          intro hbq
          rw [h, hbq] at hlt
          exact lt_irrefl _ hlt
        rw [if_pos h, List.filter_cons_of_neg (by simp [hb]), ih, if_pos h,
          List.filter_cons_of_neg (by simp [hb])]
      · rw [if_neg h]
        by_cases hb : key b = q
        · rw [List.filter_cons_of_pos (by simp [hb]), ih, if_neg h,
            List.filter_cons_of_pos (by simp [hb])]
        · rw [List.filter_cons_of_neg (by simp [hb]), ih, if_neg h,
            List.filter_cons_of_neg (by simp [hb])]

/-- Stability of the sort: for every key value, the elements carrying that key
appear in the sorted list exactly in their input order. -/
theorem filter_key_sortByKeyDesc {α κ : Type} [LinearOrder κ] (key : α → κ)
    (l : List α) (q : κ) :
    (sortByKeyDesc key l).filter (fun y => decide (key y = q)) =
      l.filter (fun y => decide (key y = q)) := by
  induction l with
  | nil => rfl
  | cons a t ih =>
    unfold sortByKeyDesc at ih ⊢
    show ((t.insertionSort _).orderedInsert _ a).filter _ = _
    rw [filter_key_orderedInsert key a (t.insertionSort _) q]
    by_cases h : key a = q
    · rw [if_pos h, ih, List.filter_cons_of_pos (by simp [h])]
    · rw [if_neg h, ih, List.filter_cons_of_neg (by simp [h])]

theorem mem_of_mem_dedupByAux {α κ : Type} [DecidableEq κ] {key : α → κ}
    {l : List α} {seen : List κ} {y : α} (h : y ∈ dedupByAux key l seen) : y ∈ l := by
  induction l generalizing seen with
  | nil => simp [dedupByAux] at h
  | cons x xs ih =>
    by_cases hx : key x ∈ seen
    · simp only [dedupByAux, if_pos hx] at h
      exact List.mem_cons_of_mem _ (ih h)
    · simp only [dedupByAux, if_neg hx, List.mem_cons] at h
      rcases h with h | h
      · exact h ▸ List.mem_cons_self _ _
      · exact List.mem_cons_of_mem _ (ih h)

theorem key_not_seen_of_mem_dedupByAux {α κ : Type} [DecidableEq κ] {key : α → κ}
    {l : List α} {seen : List κ} {y : α} (h : y ∈ dedupByAux key l seen) :
    key y ∉ seen := by
  induction l generalizing seen with
  | nil => simp [dedupByAux] at h
  | cons x xs ih =>
    by_cases hx : key x ∈ seen
    · simp only [dedupByAux, if_pos hx] at h
      exact ih h
    · simp only [dedupByAux, if_neg hx, List.mem_cons] at h
      rcases h with h | h
      · exact h ▸ hx
      · intro hy
        exact ih h (List.mem_cons_of_mem _ hy)

theorem pairwise_key_ne_dedupByAux {α κ : Type} [DecidableEq κ] (key : α → κ)
    (l : List α) (seen : List κ) :
    (dedupByAux key l seen).Pairwise (fun a b => key a ≠ key b) := by
  induction l generalizing seen with
  | nil => simp [dedupByAux]
  | cons x xs ih =>
    by_cases hx : key x ∈ seen
    · simpa [dedupByAux, hx] using ih seen
    · simp only [dedupByAux, if_neg hx]
      refine List.Pairwise.cons (fun y hy => ?_) (ih (key x :: seen))
      have := key_not_seen_of_mem_dedupByAux hy
      intro hxy
      exact this (hxy ▸ List.mem_cons_self _ _)

theorem dedupByAux_of_pairwise {α κ : Type} [DecidableEq κ] {key : α → κ}
    {l : List α} (hp : l.Pairwise (fun a b => key a ≠ key b)) :
    ∀ seen : List κ, (∀ x ∈ l, key x ∉ seen) → dedupByAux key l seen = l := by
  induction l with
  | nil => intro seen _; rfl
  | cons x xs ih =>
    intro seen hseen
    have hx : key x ∉ seen := hseen x (List.mem_cons_self _ _)
    have hp' := List.pairwise_cons.mp hp
    simp only [dedupByAux, if_neg hx]
    congr 1
    refine ih hp'.2 (key x :: seen) (fun y hy => ?_)
    intro hmem
    rcases List.mem_cons.mp hmem with h | h
    · exact (hp'.1 y hy).symm h
    · exact hseen y (List.mem_cons_of_mem _ hy) h

theorem dedupBy_of_pairwise {α κ : Type} [DecidableEq κ] {key : α → κ}
    {l : List α} (hp : l.Pairwise (fun a b => key a ≠ key b)) : dedupBy key l = l :=
  dedupByAux_of_pairwise hp [] (by simp)

theorem pairwise_key_ne_dedupBy {α κ : Type} [DecidableEq κ] (key : α → κ) (l : List α) :
    (dedupBy key l).Pairwise (fun a b => key a ≠ key b) :=
  pairwise_key_ne_dedupByAux key l []

/-- Evaluate `round` on a concrete rational via the floor characterization. -/
theorem round_eq_of {q : ℚ} {z : ℤ} (h₁ : (z : ℚ) ≤ q + 1 / 2) (h₂ : q + 1 / 2 < z + 1) :
    round q = z := by
  rw [round_eq]
  exact Int.floor_eq_iff.mpr ⟨h₁, h₂⟩

theorem scenario1_skillScore : skillScore scenario1Profile scenario1Career = 200 / 3 := by
  have h0 : ¬(allCareerSkills scenario1Career = ∅) := by decide
  have h1 : (userSkillSet scenario1Profile ∩ allCareerSkills scenario1Career).card = 2 := by
    decide
  have h2 : (allCareerSkills scenario1Career).card = 3 := by decide
  have h3 : (userSkillSet scenario1Profile ∩ requiredSkillSet scenario1Career).card = 2 := by
    decide
  have h4 : (requiredSkillSet scenario1Career).card = 3 := by decide
  unfold skillScore
  rw [if_neg h0, h1, h2, h3, h4]
  norm_num

theorem scenario1_interestScore : interestScore scenario1Profile scenario1Career = 100 := by
  have h0 : ¬(userInterestSet scenario1Profile = ∅) := by decide
  have h1 : interestMatches scenario1Profile scenario1Career = 1 := by decide
  have h2 : (userInterestSet scenario1Profile).card = 1 := by decide
  unfold interestScore
  rw [if_neg h0, h1, h2]
  norm_num

theorem scenario1_industryScore : industryScore scenario1Profile scenario1Career = 100 := by
  unfold industryScore
  rw [if_neg (by decide), if_pos (by decide)]

theorem scenario1_educationScore : educationScore scenario1Profile scenario1Career = 100 := by
  unfold educationScore
  rw [if_pos (by decide)]

theorem scenario1_experienceScore : experienceScore scenario1Profile scenario1Career = 100 := by
  unfold experienceScore
  rw [if_pos (by norm_num +decide [expRange, scenario1Profile, scenario1Career, strLower])]

theorem scenario1_total :
    (calculateMatchScore scenario1Profile scenario1Career).total_score = 86.67 := by
  have h : (calculateMatchScore scenario1Profile scenario1Career).total_score =
      round2 (skillScore scenario1Profile scenario1Career * 0.40 +
        interestScore scenario1Profile scenario1Career * 0.25 +
        industryScore scenario1Profile scenario1Career * 0.15 +
        educationScore scenario1Profile scenario1Career * 0.10 +
        experienceScore scenario1Profile scenario1Career * 0.10) := rfl
  rw [h, scenario1_skillScore, scenario1_interestScore, scenario1_industryScore,
    scenario1_educationScore, scenario1_experienceScore]
  unfold round2
  rw [show ((200 : ℚ) / 3 * 0.40 + 100 * 0.25 + 100 * 0.15 + 100 * 0.10 + 100 * 0.10) * 100 =
      26000 / 3 by norm_num]
  rw [round_eq_of (z := 8667) (by norm_num) (by norm_num)]
  norm_num

theorem scenario1_skill_match :
    (calculateMatchScore scenario1Profile scenario1Career).skill_match = 66.67 := by
  have h : (calculateMatchScore scenario1Profile scenario1Career).skill_match =
      round2 (skillScore scenario1Profile scenario1Career) := rfl
  rw [h, scenario1_skillScore]
  unfold round2
  rw [show ((200 : ℚ) / 3) * 100 = 20000 / 3 by norm_num]
  rw [round_eq_of (z := 6667) (by norm_num) (by norm_num)]
  norm_num

/-! ## Claim theorems -/

/-- C1 (amended): for every profile and role the total match score is the
weighted sum `skills*0.40 + interests*0.25 + industry*0.15 + education*0.10 +
experience*0.10`, rounded to 2 decimals; in the concrete scenario (profile
skills `{python, sql}`, required skills `[python, sql, react]`, no preferred
skills, the four other components each 100) the skills component is
`(2/3)*70 + (2/3)*30 = 66.67` and the total match score is `86.67`. -/
theorem claim_C1 :
    (∀ (p : UserProfile) (c : Career),
      (calculateMatchScore p c).total_score =
        round2 (skillScore p c * 0.40 + interestScore p c * 0.25 +
          industryScore p c * 0.15 + educationScore p c * 0.10 +
          experienceScore p c * 0.10)) ∧
    interestScore scenario1Profile scenario1Career = 100 ∧
    industryScore scenario1Profile scenario1Career = 100 ∧
    educationScore scenario1Profile scenario1Career = 100 ∧
    experienceScore scenario1Profile scenario1Career = 100 ∧
    (calculateMatchScore scenario1Profile scenario1Career).skill_match = 66.67 ∧
    (calculateMatchScore scenario1Profile scenario1Career).total_score = 86.67 :=
  ⟨fun _ _ => rfl, scenario1_interestScore, scenario1_industryScore,
    scenario1_educationScore, scenario1_experienceScore, scenario1_skill_match,
    scenario1_total⟩

/-- C1 counterexample: in the spec's scenario 1 (all four non-skill components
are 100, skills component 66.67) the code's total score is `86.67`, not the
claimed `76.67`. -/
theorem claim_C1_counterexample :
    interestScore scenario1Profile scenario1Career = 100 ∧
    industryScore scenario1Profile scenario1Career = 100 ∧
    educationScore scenario1Profile scenario1Career = 100 ∧
    experienceScore scenario1Profile scenario1Career = 100 ∧
    (calculateMatchScore scenario1Profile scenario1Career).skill_match = 66.67 ∧
    (calculateMatchScore scenario1Profile scenario1Career).total_score ≠ 76.67 :=
  ⟨scenario1_interestScore, scenario1_industryScore, scenario1_educationScore,
    scenario1_experienceScore, scenario1_skill_match, by
      rw [scenario1_total]; norm_num⟩

theorem scenario2_current : scenario2Gap.current_proficiency = 2 := by
  have h : scenario2Gap.current_proficiency =
      round1 (min (baseProficiency "high school" + min ((0 : ℚ) * 0.5) 3 +
        skillTypeModifier "react") 10) := rfl
  have hmin0 : min ((0 : ℚ) * 0.5) 3 = 0 := by
    rw [show (0 : ℚ) * 0.5 = 0 by norm_num]
    exact min_eq_left (by norm_num)
  rw [h, show baseProficiency "high school" = 2 from rfl,
    show skillTypeModifier "react" = 0 from rfl, hmin0,
    show (2 : ℚ) + 0 + 0 = 2 by norm_num,
    show min (2 : ℚ) 10 = 2 from min_eq_left (by norm_num)]
  unfold round1
  rw [show (2 : ℚ) * 10 = 20 by norm_num, round_eq_of (z := 20) (by norm_num) (by norm_num)]
  norm_num

theorem scenario2_gap_score : scenario2Gap.gap_score = 5 := by
  have h : scenario2Gap.gap_score =
      max (scenario2Gap.required_proficiency - scenario2Gap.current_proficiency) 0 := rfl
  rw [h, show scenario2Gap.required_proficiency = 7 from rfl, scenario2_current]
  rw [show (7 : ℚ) - 2 = 5 by norm_num]
  exact max_eq_left (by norm_num)

theorem scenario2_readiness : calculateOverallReadiness [scenario2Gap] = 28.6 := by
  have himp : scenario2Gap.importance_level = 9 := rfl
  have hread : skillReadiness scenario2Gap = 200 / 7 := by
    unfold skillReadiness
    rw [show scenario2Gap.required_proficiency = 7 from rfl, scenario2_current,
      if_pos (by norm_num : (0 : ℚ) < 7)]
    rw [show (2 : ℚ) / 7 * 100 = 200 / 7 by norm_num]
    exact min_eq_left (by norm_num)
  simp only [calculateOverallReadiness]
  rw [if_neg (by simp)]
  simp only [List.map_cons, List.map_nil, List.sum_cons, List.sum_nil]
  rw [hread, himp, if_pos (by norm_num : (0 : ℚ) < 9 + 0)]
  rw [show ((200 : ℚ) / 7 * 9 + 0) / (9 + 0) = 2000 / 70 by norm_num]
  unfold round1
  rw [show (2000 : ℚ) / 70 * 10 = 2000 / 7 by norm_num,
    round_eq_of (q := (2000 : ℚ) / 7) (z := 286) (by norm_num) (by norm_num)]
  norm_num

/-- C4 (amended): for the single gap produced by the gap calculator from a
required-skill requirement (importance 9, required proficiency 7) and a
profile whose estimated proficiency is 2, `gap_score = 5.0`, the per-skill
readiness is `min(2/7*100, 100) = 200/7 ≈ 28.57`, and the readiness
aggregator — which rounds to 1 decimal — returns `overall_readiness = 28.6`. -/
theorem claim_C4 :
    scenario2Gap.importance_level = 9 ∧
    scenario2Gap.current_proficiency = 2 ∧
    scenario2Gap.required_proficiency = 7 ∧
    scenario2Gap.gap_score = 5 ∧
    skillReadiness scenario2Gap = 200 / 7 ∧
    calculateOverallReadiness [scenario2Gap] = 28.6 :=
  ⟨rfl, scenario2_current, rfl, scenario2_gap_score, by
    have himp : scenario2Gap.importance_level = 9 := rfl
    unfold skillReadiness
    rw [show scenario2Gap.required_proficiency = 7 from rfl, scenario2_current,
      if_pos (by norm_num : (0 : ℚ) < 7)]
    rw [show (2 : ℚ) / 7 * 100 = 200 / 7 by norm_num]
    exact min_eq_left (by norm_num), scenario2_readiness⟩

/-- C4 counterexample: the readiness aggregator rounds to 1 decimal, so for
the scenario-2 gap it returns `28.6`, not the claimed `28.57`. -/
theorem claim_C4_counterexample :
    scenario2Gap.importance_level = 9 ∧
    scenario2Gap.current_proficiency = 2 ∧
    scenario2Gap.required_proficiency = 7 ∧
    scenario2Gap.gap_score = 5 ∧
    calculateOverallReadiness [scenario2Gap] ≠ 28.57 :=
  ⟨rfl, scenario2_current, rfl, scenario2_gap_score, by
    rw [scenario2_readiness]; norm_num⟩

/-- C10: agent execution at the public interface never propagates an
exception: a failed inner computation yields `success = false`, an empty
result, confidence 0 and the recorded error message, and a successful one
yields `success = true` with the computed result and confidence. -/
theorem claim_C10 :
    ∀ (ρ : Type) (name : String) (process : Except String (ρ × ℚ)) (r : ρ) (conf : ℚ)
      (e : String),
      executeAgent name (Except.ok ()) (Except.ok (r, conf)) =
        { agent_name := name, success := true, result := some r, confidence_score := conf,
          error_message := none } ∧
      executeAgent name (Except.ok ()) (Except.error e : Except String (ρ × ℚ)) =
        { agent_name := name, success := false, result := none, confidence_score := 0,
          error_message := some ("Agent " ++ name ++ " failed: " ++ e) } ∧
      executeAgent name (Except.error e) process =
        { agent_name := name, success := false, result := none, confidence_score := 0,
          error_message := some ("Agent " ++ name ++ " failed: " ++ e) } :=
  fun _ _ _ _ _ _ => ⟨rfl, rfl, rfl⟩

/-- C5 (violated by the code): the scoring loop of `_process` has no per-item
exception isolation, so a failure while scoring the first candidate aborts the
whole loop even though the second candidate would have scored above the
threshold; the error is only caught at the agent boundary, which returns a
failed output with an empty result — the remaining candidate is not scored. -/
theorem claim_C5 :
    processCareerMatchesE (faultyScorer scenario1Profile failingCareer)
        [failingCareer, scenario1Career] = Except.error "scoring failed" ∧
    30 < (calculateMatchScore scenario1Profile scenario1Career).total_score ∧
    (executeAgent "career_match_agent" (Except.ok ())
        ((processCareerMatchesE (faultyScorer scenario1Profile failingCareer)
            [failingCareer, scenario1Career]).map (fun ms => (ms, (1 : ℚ) / 2)))).success
      = false ∧
    (executeAgent "career_match_agent" (Except.ok ())
        ((processCareerMatchesE (faultyScorer scenario1Profile failingCareer)
            [failingCareer, scenario1Career]).map (fun ms => (ms, (1 : ℚ) / 2)))).result
      = none :=
  ⟨rfl, by rw [scenario1_total]; norm_num, rfl, rfl⟩

/-- C7: when the target role yields zero skill requirements,
`analyze_skill_gaps` returns without raising, with `overall_readiness = 100`
and a roadmap whose three phases hold no skills. -/
theorem claim_C7 :
    ∀ (p : UserProfile) (c : Career),
      getCareerSkillRequirements c = [] →
      analyzeSkillGaps p (some c) = Except.ok
        { skill_gaps := []
          overall_readiness := 100
          learning_roadmap := createLearningRoadmap []
          priority_skills := [] } ∧
      (createLearningRoadmap []).phase_1_immediate.skills = [] ∧
      (createLearningRoadmap []).phase_2_foundation.skills = [] ∧
      (createLearningRoadmap []).phase_3_advanced.skills = [] := by
  intro p c h
  refine ⟨?_, rfl, rfl, rfl⟩
  simp only [analyzeSkillGaps, h, List.map_nil]
  rfl

/-- C7 witness: the empty-skill role yields zero requirements and the safe
empty analysis. -/
theorem claim_C7_witness :
    getCareerSkillRequirements emptyRoleCareer = [] ∧
    (analyzeSkillGaps scenario2Profile (some emptyRoleCareer) = Except.ok
      { skill_gaps := []
        overall_readiness := 100
        learning_roadmap := createLearningRoadmap []
        priority_skills := [] } ∧
    (createLearningRoadmap []).phase_1_immediate.skills = [] ∧
    (createLearningRoadmap []).phase_2_foundation.skills = [] ∧
    (createLearningRoadmap []).phase_3_advanced.skills = []) :=
  ⟨rfl, claim_C7 scenario2Profile emptyRoleCareer rfl⟩

/-- C2: `score_career_matches` returns no match with total score ≤ 30, its
output is sorted by match score in descending order, and it has at most 10
entries. -/
theorem claim_C2 :
    ∀ (p : UserProfile) (candidates : List Career),
      (∀ m ∈ processCareerMatches p candidates, 30 < m.match_score) ∧
      (processCareerMatches p candidates).Sorted
        (fun a b => b.match_score ≤ a.match_score) ∧
      (processCareerMatches p candidates).length ≤ 10 := by
  intro p candidates
  simp only [processCareerMatches]
  refine ⟨?_, ?_, ?_⟩
  · intro m hm
    have hm1 := List.mem_of_mem_take hm
    have hm2 := ((sortByKeyDesc_perm CareerMatchRec.match_score _).mem_iff).mp hm1
    rcases List.mem_filterMap.mp hm2 with ⟨c, _, hfc⟩
    by_cases h30 : 30 < (calculateMatchScore p c).total_score
    · rw [if_pos h30] at hfc
      cases hfc
      exact h30
    · rw [if_neg h30] at hfc
      cases hfc
  · exact List.Pairwise.sublist (List.take_sublist _ _)
      (sortByKeyDesc_sorted CareerMatchRec.match_score _)
  · rw [List.length_take]
    exact min_le_left _ _

/-- The `if / elif / else` partition loop computes the three order-preserving
filters by the priority predicates. -/
theorem bucketGaps_eq (gaps : List SkillGap) :
    bucketGaps gaps =
      (gaps.filter isHighPriority, gaps.filter isMediumPriority,
        gaps.filter isLowPriority) := by
  induction gaps with
  | nil => rfl
  | cons g rest ih =>
    simp only [bucketGaps, ih]
    by_cases h1 : 5 < g.gap_score ∧ 7 < g.importance_level
    · simp [List.filter_cons, isHighPriority, isMediumPriority, isLowPriority, h1]
    · by_cases h2 : 3 < g.gap_score ∧ 5 < g.importance_level
      · simp [List.filter_cons, isHighPriority, isMediumPriority, isLowPriority, h1, h2]
      · simp [List.filter_cons, isHighPriority, isMediumPriority, isLowPriority, h1, h2]

theorem scenario3_filters :
    List.filter isHighPriority [scenario3High, scenario3Med, scenario3Low] =
        [scenario3High] ∧
    List.filter isMediumPriority [scenario3High, scenario3Med, scenario3Low] =
        [scenario3Med] ∧
    List.filter isLowPriority [scenario3High, scenario3Med, scenario3Low] =
        [scenario3Low] := by
  have hH : (5 : ℚ) < 6 ∧ (7 : ℚ) < 8 := by norm_num
  have hM1 : ¬((5 : ℚ) < 4 ∧ (7 : ℚ) < 6) := by norm_num
  have hM2 : (3 : ℚ) < 4 ∧ (5 : ℚ) < 6 := by norm_num
  have hL1 : ¬((5 : ℚ) < 1 ∧ (7 : ℚ) < 3) := by norm_num
  have hL2 : ¬((3 : ℚ) < 1 ∧ (5 : ℚ) < 3) := by norm_num
  refine ⟨?_, ?_, ?_⟩ <;>
    simp [List.filter_cons, isHighPriority, isMediumPriority, isLowPriority,
      show scenario3High.gap_score = 6 from rfl,
      show scenario3High.importance_level = 8 from rfl,
      show scenario3Med.gap_score = 4 from rfl,
      show scenario3Med.importance_level = 6 from rfl,
      show scenario3Low.gap_score = 1 from rfl,
      show scenario3Low.importance_level = 3 from rfl,
      hH, hM1, hM2, hL1, hL2]

/-- C6: the roadmap bucketer assigns gaps to the high/medium/low buckets by
exactly the thresholds `gap_score > 5 ∧ importance > 7` (high),
not-high ∧ `gap_score > 3 ∧ importance > 5` (medium), and everything else
(low); phase 1 is the top 3 high-priority skills, phase 2 the remaining high
plus top 3 medium, phase 3 the remaining medium plus all low, each bucket
sorted by importance descending with ties keeping input order (stability
stated as preservation of every equal-importance subsequence); and the three
scenario gaps `(6,8)`, `(4,6)`, `(1,3)` land in phases 1, 2, 3. -/
theorem claim_C6 :
    (∀ gaps : List SkillGap,
      bucketGaps gaps =
        (gaps.filter isHighPriority, gaps.filter isMediumPriority,
          gaps.filter isLowPriority)) ∧
    (∀ g : SkillGap,
      (isHighPriority g = true ↔ 5 < g.gap_score ∧ 7 < g.importance_level) ∧
      (isMediumPriority g = true ↔
        ¬(5 < g.gap_score ∧ 7 < g.importance_level) ∧
          (3 < g.gap_score ∧ 5 < g.importance_level)) ∧
      (isLowPriority g = true ↔
        isHighPriority g = false ∧ isMediumPriority g = false)) ∧
    (∀ gaps : List SkillGap,
      (createLearningRoadmap gaps).phase_1_immediate.skills =
        ((sortByImportanceDesc (gaps.filter isHighPriority)).take 3).map
          SkillGap.skill_name ∧
      (createLearningRoadmap gaps).phase_2_foundation.skills =
        ((sortByImportanceDesc (gaps.filter isHighPriority)).drop 3 ++
          (sortByImportanceDesc (gaps.filter isMediumPriority)).take 3).map
          SkillGap.skill_name ∧
      (createLearningRoadmap gaps).phase_3_advanced.skills =
        ((sortByImportanceDesc (gaps.filter isMediumPriority)).drop 3 ++
          sortByImportanceDesc (gaps.filter isLowPriority)).map
          SkillGap.skill_name) ∧
    (∀ l : List SkillGap,
      (sortByImportanceDesc l).Sorted
        (fun a b => b.importance_level ≤ a.importance_level) ∧
      List.Perm (sortByImportanceDesc l) l ∧
      (∀ q : ℚ,
        (sortByImportanceDesc l).filter (fun g => decide (g.importance_level = q)) =
          l.filter (fun g => decide (g.importance_level = q)))) ∧
    ((createLearningRoadmap [scenario3High, scenario3Med, scenario3Low]).phase_1_immediate.skills
        = ["a"] ∧
     (createLearningRoadmap [scenario3High, scenario3Med, scenario3Low]).phase_2_foundation.skills
        = ["b"] ∧
     (createLearningRoadmap [scenario3High, scenario3Med, scenario3Low]).phase_3_advanced.skills
        = ["c"]) := by
  have hphases : ∀ gaps : List SkillGap,
      (createLearningRoadmap gaps).phase_1_immediate.skills =
        ((sortByImportanceDesc (gaps.filter isHighPriority)).take 3).map
          SkillGap.skill_name ∧
      (createLearningRoadmap gaps).phase_2_foundation.skills =
        ((sortByImportanceDesc (gaps.filter isHighPriority)).drop 3 ++
          (sortByImportanceDesc (gaps.filter isMediumPriority)).take 3).map
          SkillGap.skill_name ∧
      (createLearningRoadmap gaps).phase_3_advanced.skills =
        ((sortByImportanceDesc (gaps.filter isMediumPriority)).drop 3 ++
          sortByImportanceDesc (gaps.filter isLowPriority)).map
          SkillGap.skill_name := by
    intro gaps
    simp only [createLearningRoadmap, bucketGaps_eq]
    refine ⟨?_, ?_, ?_⟩ <;> trivial
  refine ⟨bucketGaps_eq, ?_, hphases, ?_, ?_⟩
  · intro g
    refine ⟨?_, ?_, ?_⟩
    · simp only [isHighPriority, decide_eq_true_eq]
    · simp only [isMediumPriority, decide_eq_true_eq]
    · simp only [isLowPriority, Bool.and_eq_true, Bool.not_eq_true']
  · intro l
    exact ⟨sortByKeyDesc_sorted SkillGap.importance_level l,
      sortByKeyDesc_perm SkillGap.importance_level l,
      fun q => filter_key_sortByKeyDesc SkillGap.importance_level l q⟩
  · rcases scenario3_filters with ⟨hH, hM, hL⟩
    rcases hphases [scenario3High, scenario3Med, scenario3Low] with ⟨h1, h2, h3⟩
    rw [h1, h2, h3, hH, hM, hL]
    exact ⟨rfl, rfl, rfl⟩

/-- C9: `rank_dedup` is idempotent — its output has pairwise-distinct
de-duplication keys, is already sorted, and is no longer than the cap, so a
second application returns it unchanged. -/
theorem claim_C9 :
    ∀ (cap : ℕ) (l : List LearningResource),
      rankDedup cap (rankDedup cap l) = rankDedup cap l := by
  intro cap l
  have hpair : (dedupBy resourceDedupKey l).Pairwise
      (fun a b => resourceDedupKey a ≠ resourceDedupKey b) :=
    pairwise_key_ne_dedupBy _ _
  have hperm := sortByKeyDesc_perm resourceSortKey (dedupBy resourceDedupKey l)
  have hpair_s : (sortByKeyDesc resourceSortKey (dedupBy resourceDedupKey l)).Pairwise
      (fun a b => resourceDedupKey a ≠ resourceDedupKey b) :=
    (hperm.pairwise_iff (fun h => Ne.symm h)).mpr hpair
  have hpair_o : (rankDedup cap l).Pairwise
      (fun a b => resourceDedupKey a ≠ resourceDedupKey b) :=
    List.Pairwise.sublist (List.take_sublist _ _) hpair_s
  have hsorted_s := sortByKeyDesc_sorted resourceSortKey (dedupBy resourceDedupKey l)
  have hsorted_o : (rankDedup cap l).Sorted
      (fun a b => resourceSortKey b ≤ resourceSortKey a) :=
    List.Pairwise.sublist (List.take_sublist _ _) hsorted_s
  have hlen : (rankDedup cap l).length ≤ cap := by
    show ((sortByKeyDesc resourceSortKey (dedupBy resourceDedupKey l)).take cap).length ≤ cap
    rw [List.length_take]
    exact min_le_left _ _
  show (sortByKeyDesc resourceSortKey (dedupBy resourceDedupKey (rankDedup cap l))).take cap
      = rankDedup cap l
  rw [dedupBy_of_pairwise hpair_o, sortByKeyDesc_of_sorted hsorted_o]
  exact List.take_of_length_le hlen

/-- C8: adding a skill that matches the role (and is not already held) never
decreases the skills component score. -/
theorem claim_C8 :
    ∀ (p : UserProfile) (c : Career) (s : String),
      strLower s ∈ allCareerSkills c →
      strLower s ∉ userSkillSet p →
      skillScore p c ≤ skillScore { p with skills := s :: p.skills } c := by
  intro p c s _ _
  by_cases hA : allCareerSkills c = ∅
  · unfold skillScore
    rw [if_pos hA, if_pos hA]
  · have hU : userSkillSet { p with skills := s :: p.skills } =
        insert (strLower s) (userSkillSet p) := by
      simp [userSkillSet]
    unfold skillScore
    rw [if_neg hA, if_neg hA, hU]
    have h1 : ((userSkillSet p ∩ allCareerSkills c).card : ℚ) ≤
        ((insert (strLower s) (userSkillSet p) ∩ allCareerSkills c).card : ℚ) := by
      exact_mod_cast Finset.card_le_card
        (Finset.inter_subset_inter (Finset.subset_insert _ _) (le_refl _))
    have h2 : ((userSkillSet p ∩ requiredSkillSet c).card : ℚ) ≤
        ((insert (strLower s) (userSkillSet p) ∩ requiredSkillSet c).card : ℚ) := by
      exact_mod_cast Finset.card_le_card
        (Finset.inter_subset_inter (Finset.subset_insert _ _) (le_refl _))
    gcongr

/-- C8 witness: adding `react` (a role skill not yet held) to the scenario-1
profile does not decrease the skills component. -/
theorem claim_C8_witness :
    strLower "React" ∈ allCareerSkills scenario1Career ∧
    strLower "React" ∉ userSkillSet scenario1Profile ∧
    skillScore scenario1Profile scenario1Career ≤
      skillScore { scenario1Profile with skills := "React" :: scenario1Profile.skills }
        scenario1Career :=
  ⟨by decide, by decide,
    claim_C8 scenario1Profile scenario1Career "React" (by decide) (by decide)⟩

theorem round1_zero : round1 0 = 0 := by
  unfold round1
  rw [show (0 : ℚ) * 10 = 0 by norm_num, round_zero]
  norm_num

theorem round1_hundred : round1 100 = 100 := by
  unfold round1
  rw [show (100 : ℚ) * 10 = 1000 by norm_num,
    round_eq_of (z := 1000) (by norm_num) (by norm_num)]
  norm_num

theorem round2_zero : round2 0 = 0 := by
  unfold round2
  rw [show (0 : ℚ) * 100 = 0 by norm_num, round_zero]
  norm_num

theorem round2_hundred : round2 100 = 100 := by
  unfold round2
  rw [show (100 : ℚ) * 100 = 10000 by norm_num,
    round_eq_of (z := 10000) (by norm_num) (by norm_num)]
  norm_num

theorem skillScore_bounds (p : UserProfile) (c : Career) :
    0 ≤ skillScore p c ∧ skillScore p c ≤ 100 := by
  unfold skillScore
  split_ifs with h
  · norm_num
  · constructor
    · positivity
    · have hA : (0 : ℚ) < ((allCareerSkills c).card : ℚ) := by
        have : 0 < (allCareerSkills c).card :=
          Finset.card_pos.mpr (Finset.nonempty_of_ne_empty h)
        exact_mod_cast this
      have hQ : (0 : ℚ) < ((max (requiredSkillSet c).card 1 : ℕ) : ℚ) := by
        have : 0 < max (requiredSkillSet c).card 1 :=
          Nat.lt_of_lt_of_le Nat.zero_lt_one (le_max_right _ _)
        exact_mod_cast this
      have h1 : ((userSkillSet p ∩ allCareerSkills c).card : ℚ) ≤
          ((allCareerSkills c).card : ℚ) := by
        exact_mod_cast Finset.card_le_card Finset.inter_subset_right
      have h2 : ((userSkillSet p ∩ requiredSkillSet c).card : ℚ) ≤
          ((max (requiredSkillSet c).card 1 : ℕ) : ℚ) := by
        exact_mod_cast le_trans (Finset.card_le_card Finset.inter_subset_right)
          (le_max_left _ _)
      have t1 := (div_le_one hA).mpr h1
      have t2 := (div_le_one hQ).mpr h2
      linarith

theorem interestScore_bounds (p : UserProfile) (c : Career) :
    0 ≤ interestScore p c ∧ interestScore p c ≤ 100 := by
  unfold interestScore
  split_ifs with h
  · norm_num
  · exact ⟨le_min (by positivity) (by norm_num), min_le_right _ _⟩

theorem industryScore_bounds (p : UserProfile) (c : Career) :
    0 ≤ industryScore p c ∧ industryScore p c ≤ 100 := by
  unfold industryScore
  split_ifs <;> norm_num

theorem educationScore_bounds (p : UserProfile) (c : Career) :
    0 ≤ educationScore p c ∧ educationScore p c ≤ 100 := by
  simp only [educationScore]
  split_ifs <;> norm_num

theorem experienceScore_bounds (p : UserProfile) (c : Career) :
    0 ≤ experienceScore p c ∧ experienceScore p c ≤ 100 := by
  simp only [experienceScore]
  split_ifs with h1 h2
  · norm_num
  · constructor
    · exact le_trans (by norm_num) (le_max_right _ 20)
    · apply max_le
      · linarith [h2]
      · norm_num
  · push_neg at h1
    have h3 : (expRange (strLower c.experience_level)).2 < p.experience_years :=
      h1 (le_of_not_lt h2)
    constructor
    · exact le_trans (by norm_num) (le_max_right _ 50)
    · apply max_le
      · linarith
      · norm_num

theorem matchScore_bounds (p : UserProfile) (c : Career) :
    0 ≤ (calculateMatchScore p c).total_score ∧
      (calculateMatchScore p c).total_score ≤ 100 := by
  have heq : (calculateMatchScore p c).total_score =
      round2 (skillScore p c * 0.40 + interestScore p c * 0.25 +
        industryScore p c * 0.15 + educationScore p c * 0.10 +
        experienceScore p c * 0.10) := rfl
  rcases skillScore_bounds p c with ⟨s0, s1⟩
  rcases interestScore_bounds p c with ⟨i0, i1⟩
  rcases industryScore_bounds p c with ⟨n0, n1⟩
  rcases educationScore_bounds p c with ⟨e0, e1⟩
  rcases experienceScore_bounds p c with ⟨x0, x1⟩
  constructor
  · rw [heq, ← round2_zero]
    exact round2_mono (by linarith)
  · rw [heq, ← round2_hundred]
    exact round2_mono (by linarith)

/-- Every requirement produced by the role-requirement normalizer carries
either the required-skill constants (9, 7) or the preferred-skill constants
(6, 5). -/
theorem req_spec (c : Career) (req : SkillReq)
    (h : req ∈ getCareerSkillRequirements c) :
    (req.importance_level = 9 ∧ req.required_proficiency = 7) ∨
      (req.importance_level = 6 ∧ req.required_proficiency = 5) := by
  have key : ∀ (pref : List String) (acc : List SkillReq),
      (∀ r ∈ acc, (r.importance_level = 9 ∧ r.required_proficiency = 7) ∨
        (r.importance_level = 6 ∧ r.required_proficiency = 5)) →
      ∀ r ∈ pref.foldl addPreferred acc,
        (r.importance_level = 9 ∧ r.required_proficiency = 7) ∨
          (r.importance_level = 6 ∧ r.required_proficiency = 5) := by
    intro pref
    induction pref with
    | nil => intro acc hacc r hr; exact hacc r hr
    | cons s rest ih =>
      intro acc hacc r hr
      rw [List.foldl_cons] at hr
      refine ih (addPreferred acc s) ?_ r hr
      intro x hx
      unfold addPreferred at hx
      split_ifs at hx with hmem
      · exact hacc x hx
      · rcases List.mem_append.mp hx with hx' | hx'
        · exact hacc x hx'
        · rcases List.mem_singleton.mp hx' with rfl
          exact Or.inr ⟨rfl, rfl⟩
  refine key c.preferred_skills (c.required_skills.map reqFromRequired) ?_ req h
  intro r hr
  rcases List.mem_map.mp hr with ⟨s, _, rfl⟩
  exact Or.inl ⟨rfl, rfl⟩

theorem skillProficiency_nonneg (p : UserProfile) (name : String)
    (h : 0 ≤ p.experience_years) : 0 ≤ skillProficiency p name := by
  unfold skillProficiency
  split_ifs with hmem
  · have hbase : 2 ≤ baseProficiency p.education_level := by
      simp only [baseProficiency]
      split_ifs <;> norm_num
    have hboost : 0 ≤ min (p.experience_years * 0.5) 3 :=
      le_min (mul_nonneg h (by norm_num)) (by norm_num)
    have hmod : -(1 / 2 : ℚ) ≤ skillTypeModifier name := by
      simp only [skillTypeModifier]
      split_ifs <;> norm_num
    have hx : 0 ≤ min (baseProficiency p.education_level +
        min (p.experience_years * 0.5) 3 + skillTypeModifier name) 10 :=
      le_min (by linarith) (by norm_num)
    have := round1_mono hx
    rwa [round1_zero] at this
  · exact le_refl 0

theorem gap_score_bounds (p : UserProfile) (c : Career) (req : SkillReq)
    (hmem : req ∈ getCareerSkillRequirements c) (hexp : 0 ≤ p.experience_years) :
    0 ≤ (analyzeSingleSkillGap p req).gap_score ∧
      (analyzeSingleSkillGap p req).gap_score ≤ 10 := by
  have hprof := skillProficiency_nonneg p req.name hexp
  have hreq7 : req.required_proficiency ≤ 7 := by
    rcases req_spec c req hmem with ⟨_, h⟩ | ⟨_, h⟩ <;> rw [h]
    all_goals norm_num
  constructor
  · exact le_max_right _ _
  · show max (req.required_proficiency - skillProficiency p req.name) 0 ≤ 10
    apply max_le
    · linarith
    · norm_num

theorem skillReadiness_bounds (g : SkillGap) (hc : 0 ≤ g.current_proficiency) :
    0 ≤ skillReadiness g ∧ skillReadiness g ≤ 100 := by
  unfold skillReadiness
  split_ifs with h
  · refine ⟨le_min ?_ (by norm_num), min_le_right _ _⟩
    exact mul_nonneg (div_nonneg hc (le_of_lt h)) (by norm_num)
  · norm_num

theorem readiness_sums :
    ∀ gaps : List SkillGap,
      (∀ g ∈ gaps, 0 ≤ g.current_proficiency ∧ 0 ≤ g.importance_level) →
      0 ≤ (gaps.map SkillGap.importance_level).sum ∧
      0 ≤ (gaps.map (fun g => skillReadiness g * g.importance_level)).sum ∧
      (gaps.map (fun g => skillReadiness g * g.importance_level)).sum ≤
        100 * (gaps.map SkillGap.importance_level).sum := by
  intro gaps
  induction gaps with
  | nil => intro _; simp
  | cons g rest ih =>
    intro h
    have hg := h g (List.mem_cons_self _ _)
    have hrest := ih (fun x hx => h x (List.mem_cons_of_mem _ hx))
    rcases skillReadiness_bounds g hg.1 with ⟨hr0, hr100⟩
    simp only [List.map_cons, List.sum_cons]
    have hm0 : 0 ≤ skillReadiness g * g.importance_level := mul_nonneg hr0 hg.2
    have hm100 : skillReadiness g * g.importance_level ≤ 100 * g.importance_level :=
      mul_le_mul_of_nonneg_right hr100 hg.2
    refine ⟨by linarith [hrest.1, hg.2], by linarith [hrest.2.1], ?_⟩
    have := hrest.2.2
    linarith

theorem calculateOverallReadiness_bounds (gaps : List SkillGap)
    (h : ∀ g ∈ gaps, 0 ≤ g.current_proficiency ∧ 0 ≤ g.importance_level) :
    0 ≤ calculateOverallReadiness gaps ∧ calculateOverallReadiness gaps ≤ 100 := by
  rcases readiness_sums gaps h with ⟨hw, hs0, hs100⟩
  simp only [calculateOverallReadiness]
  split_ifs with hnil htw
  · norm_num
  · constructor
    · have harg : (0 : ℚ) ≤
          (gaps.map (fun g => skillReadiness g * g.importance_level)).sum /
            (gaps.map SkillGap.importance_level).sum :=
        div_nonneg hs0 (le_of_lt htw)
      have := round1_mono harg
      rwa [round1_zero] at this
    · have harg : (gaps.map (fun g => skillReadiness g * g.importance_level)).sum /
          (gaps.map SkillGap.importance_level).sum ≤ 100 := by
        rw [div_le_iff₀ htw]
        linarith
      have := round1_mono harg
      rwa [round1_hundred] at this
  · rw [round1_hundred]
    norm_num

/-- C3: every career-match component score and the total match score lie in
[0, 100]; every gap score produced by the gap calculator from a
normalizer-produced requirement (with non-negative experience years) lies in
[0, 10]; and the overall readiness of any gap list with non-negative
proficiencies and importances lies in [0, 100]. -/
theorem claim_C3 :
    ∀ (p : UserProfile) (c : Career) (req : SkillReq) (gaps : List SkillGap),
      (0 ≤ skillScore p c ∧ skillScore p c ≤ 100) ∧
      (0 ≤ interestScore p c ∧ interestScore p c ≤ 100) ∧
      (0 ≤ industryScore p c ∧ industryScore p c ≤ 100) ∧
      (0 ≤ educationScore p c ∧ educationScore p c ≤ 100) ∧
      (0 ≤ experienceScore p c ∧ experienceScore p c ≤ 100) ∧
      (0 ≤ (calculateMatchScore p c).total_score ∧
        (calculateMatchScore p c).total_score ≤ 100) ∧
      (req ∈ getCareerSkillRequirements c → 0 ≤ p.experience_years →
        0 ≤ (analyzeSingleSkillGap p req).gap_score ∧
          (analyzeSingleSkillGap p req).gap_score ≤ 10) ∧
      ((∀ g ∈ gaps, 0 ≤ g.current_proficiency ∧ 0 ≤ g.importance_level) →
        0 ≤ calculateOverallReadiness gaps ∧ calculateOverallReadiness gaps ≤ 100) :=
  fun p c req gaps =>
    ⟨skillScore_bounds p c, interestScore_bounds p c, industryScore_bounds p c,
      educationScore_bounds p c, experienceScore_bounds p c, matchScore_bounds p c,
      fun hmem hexp => gap_score_bounds p c req hmem hexp,
      fun h => calculateOverallReadiness_bounds gaps h⟩

/-- C3 witness: the bounds at the concrete scenario inputs, with the
membership, experience and gap-list hypotheses discharged. -/
theorem claim_C3_witness :
    (reqFromRequired "Python" ∈ getCareerSkillRequirements scenario1Career ∧
      (0 : ℚ) ≤ scenario2Profile.experience_years ∧
      (∀ g ∈ [scenario2Gap], 0 ≤ g.current_proficiency ∧ 0 ≤ g.importance_level)) ∧
    (0 ≤ (analyzeSingleSkillGap scenario2Profile (reqFromRequired "Python")).gap_score ∧
      (analyzeSingleSkillGap scenario2Profile (reqFromRequired "Python")).gap_score ≤ 10) ∧
    (0 ≤ calculateOverallReadiness [scenario2Gap] ∧
      calculateOverallReadiness [scenario2Gap] ≤ 100) ∧
    (0 ≤ skillScore scenario2Profile scenario1Career ∧
      skillScore scenario2Profile scenario1Career ≤ 100) := by
  have h := claim_C3 scenario2Profile scenario1Career (reqFromRequired "Python") [scenario2Gap]
  have hmem : reqFromRequired "Python" ∈ getCareerSkillRequirements scenario1Career := by
    rw [show getCareerSkillRequirements scenario1Career =
      [reqFromRequired "Python", reqFromRequired "SQL", reqFromRequired "React"] from rfl]
    exact List.mem_cons_self _ _
  have hexp : (0 : ℚ) ≤ scenario2Profile.experience_years := le_refl 0
  have hg : ∀ g ∈ [scenario2Gap], 0 ≤ g.current_proficiency ∧ 0 ≤ g.importance_level := by
    intro g hgm
    rcases List.mem_singleton.mp hgm with rfl
    constructor
    · rw [scenario2_current]
      norm_num
    · rw [show scenario2Gap.importance_level = 9 from rfl]
      norm_num
  exact ⟨⟨hmem, hexp, hg⟩, h.2.2.2.2.2.2.1 hmem hexp, h.2.2.2.2.2.2.2 hg, h.1⟩

/-- C2 witness: scoring the single scenario-1 candidate yields one retained
match, whose score exceeds 30, within the length cap. -/
theorem claim_C2_witness :
    mkCareerMatch scenario1Career (calculateMatchScore scenario1Profile scenario1Career)
        ∈ processCareerMatches scenario1Profile [scenario1Career] ∧
    30 < (mkCareerMatch scenario1Career
        (calculateMatchScore scenario1Profile scenario1Career)).match_score ∧
    (processCareerMatches scenario1Profile [scenario1Career]).length ≤ 10 := by
  have h30 : 30 < (calculateMatchScore scenario1Profile scenario1Career).total_score := by
    rw [scenario1_total]
    norm_num
  have hlist : processCareerMatches scenario1Profile [scenario1Career] =
      [mkCareerMatch scenario1Career (calculateMatchScore scenario1Profile scenario1Career)] := by
    simp only [processCareerMatches, List.filterMap_cons, List.filterMap_nil]
    rw [if_pos h30]
    rfl
  have hmem : mkCareerMatch scenario1Career
      (calculateMatchScore scenario1Profile scenario1Career)
      ∈ processCareerMatches scenario1Profile [scenario1Career] := by
    rw [hlist]
    exact List.mem_cons_self _ _
  exact ⟨hmem, (claim_C2 scenario1Profile [scenario1Career]).1 _ hmem,
    (claim_C2 scenario1Profile [scenario1Career]).2.2⟩

end CareerAdvisor
